import Mathlib

/-!
Verification of the Prometheus MCP server core
(`prometheus_mcp_server/server.py`) against its natural-language
specification.  The Python source is shallowly embedded: pure fragments
become Lean functions, the module-level metrics cache becomes explicit
state passing, exceptions become `Except`, and Python `dict`s used as
HTTP header maps become functions `String → Option String`.
-/

namespace PromMCP

/-! ### Python string primitives

`isPrefOf` / `isSubOf` model Python's `needle in haystack` membership
test on strings (contiguous-substring containment); `lower` models
`str.lower()` (character-wise lowering, which is exact for the ASCII
metric names involved); `rstripSlash` models `str.rstrip('/')`. -/

def isPrefOf : List Char → List Char → Bool
  | [], _ => true
  | _ :: _, [] => false
  | a :: as, b :: bs => a == b && isPrefOf as bs

def isSubOf : List Char → List Char → Bool
  | n, [] => n.isEmpty
  | n, c :: t => isPrefOf n (c :: t) || isSubOf n t

/-- Python `needle in hay` for strings. -/
def strIn (needle hay : String) : Bool :=
  isSubOf needle.data hay.data

/-- Python `s.lower()` (character-wise). -/
def lower (s : String) : String :=
  ⟨s.data.map Char.toLower⟩

/-- Python `s.rstrip('/')`. -/
def rstripSlash (s : String) : String :=
  ⟨(s.data.reverse.dropWhile (fun c => c == '/')).reverse⟩

/-! ### Python list slicing

`pyIndex` resolves a (possibly negative) Python slice bound against a
list of length `n`; `pySlice xs a b` is Python's `xs[a:b]`. -/

def pyIndex (n : Nat) (i : Int) : Nat :=
  if i < 0 then (max (i + n) 0).toNat else min i.toNat n

def pySlice {α : Type} (xs : List α) (a b : Int) : List α :=
  (xs.take (pyIndex xs.length b)).drop (pyIndex xs.length a)

theorem pyIndex_le (n : Nat) (i : Int) : pyIndex n i ≤ n := by
  unfold pyIndex
  split <;> omega

theorem pyIndex_of_nonneg (n : Nat) (i : Int) (h : 0 ≤ i) :
    (pyIndex n i : Int) = min i (n : Int) := by
  unfold pyIndex
  split
  · omega
  · omega

theorem pySlice_length (α : Type) (xs : List α) (a b : Int) :
    ((pySlice xs a b).length : Int)
      = max ((pyIndex xs.length b : Int) - (pyIndex xs.length a : Int)) 0 := by
  have hb := pyIndex_le xs.length b
  unfold pySlice
  simp only [List.length_drop, List.length_take]
  omega

/-! ### Pagination handlers (`list_metrics`, `search_metrics`)

`server.py` lines 375–437 and 450–489.  Both handlers filter the metric
catalog by a case-insensitive substring test, then slice
`data[offset : offset + limit]` (with `end_idx = len(data)` when
`limit is None`), and report `has_more = end_idx < total_count`.
The catalog itself (the outcome of the backend / cache fetch) is a
parameter. -/

structure PaginatedMetricList where
  metrics : List String
  total_count : Nat
  returned_count : Nat
  offset : Int
  has_more : Bool
deriving Repr, DecidableEq

/-- `if filter_pattern:` — the filter in `list_metrics` runs only when
the optional pattern is truthy (present and non-empty). -/
def applyFilter (filter_pattern : Option String) (data : List String) : List String :=
  match filter_pattern with
  | none => data
  | some p => if p = "" then data else data.filter (fun m => strIn (lower p) (lower m))

/-- `end_idx = offset + limit if limit is not None else len(data)`. -/
def listEnd (n : Nat) (limit : Option Int) (offset : Int) : Int :=
  match limit with
  | some l => offset + l
  | none => (n : Int)

/-- `list_metrics` (server.py lines 375–437), with the fetched catalog
passed explicitly. -/
def list_metrics (catalog : List String) (limit : Option Int) (offset : Int)
    (filter_pattern : Option String) : PaginatedMetricList :=
  let data := applyFilter filter_pattern catalog
  let paginated := pySlice data offset (listEnd data.length limit offset)
  { metrics := paginated
    total_count := data.length
    returned_count := paginated.length
    offset := offset
    has_more := decide (listEnd data.length limit offset < (data.length : Int)) }

/-- `search_metrics` (server.py lines 450–489), with the cached catalog
passed explicitly.  Its `limit` argument is a plain `int`
(default `50`), never `None`. -/
def search_metrics (catalog : List String) (term : String) (limit : Int)
    (offset : Int) : PaginatedMetricList :=
  let filtered := catalog.filter (fun m => strIn (lower term) (lower m))
  let paginated := pySlice filtered offset (offset + limit)
  { metrics := paginated
    total_count := filtered.length
    returned_count := paginated.length
    offset := offset
    has_more := decide (offset + limit < (filtered.length : Int)) }

theorem isSubOf_nil (l : List Char) : isSubOf [] l = true := by
  cases l <;> simp [isSubOf, isPrefOf, List.isEmpty]

theorem strIn_empty (s : String) : strIn "" s = true := by
  simpa [strIn] using isSubOf_nil s.data

/-- Shared arithmetic core of the two paginated handlers: the length of
the page `data[offset : end_idx]` and the `has_more` flag, for a
non-negative offset and a non-negative (or absent) limit. -/
theorem paginate_core (data : List String) (offset : Int) (hoff : 0 ≤ offset)
    (lim : Option Int) (hl : ∀ l, lim = some l → 0 ≤ l) :
    ((pySlice data offset (listEnd data.length lim offset)).length : Int)
      = (match lim with
          | none => max ((data.length : Int) - offset) 0
          | some l => min (max ((data.length : Int) - offset) 0) l)
    ∧ decide (listEnd data.length lim offset < (data.length : Int))
        = decide (offset + ((pySlice data offset (listEnd data.length lim offset)).length : Int)
            < (data.length : Int)) := by
  rcases lim with _ | l
  · simp only [listEnd]
    have h1 : ((pySlice data offset (data.length : Int)).length : Int)
        = max ((data.length : Int) - offset) 0 := by
      rw [pySlice_length, pyIndex_of_nonneg _ _ (Int.natCast_nonneg _),
        pyIndex_of_nonneg _ _ hoff]
      omega
    refine ⟨h1, ?_⟩
    rw [decide_eq_decide]
    omega
  · have hl0 : 0 ≤ l := hl l rfl
    simp only [listEnd]
    have h1 : ((pySlice data offset (offset + l)).length : Int)
        = min (max ((data.length : Int) - offset) 0) l := by
      rw [pySlice_length, pyIndex_of_nonneg _ _ (by omega : (0:Int) ≤ offset + l),
        pyIndex_of_nonneg _ _ hoff]
      omega
    refine ⟨h1, ?_⟩
    rw [decide_eq_decide]
    omega

/-- C1: for every catalog, every optional filter pattern, and all valid
`(limit, offset)` with `offset ≥ 0` (and a non-negative limit where one
is given), the results of `list_metrics` and `search_metrics` satisfy
`returned_count = min (max (total_count - offset) 0) limit-or-∞` and
`has_more = decide (offset + returned_count < total_count)`. -/
theorem C1_pagination_counts (catalog : List String) (pat : Option String)
    (limit : Option Int) (term : String) (limS offset : Int)
    (hoff : 0 ≤ offset) (hlim : ∀ l, limit = some l → 0 ≤ l) (hlimS : 0 ≤ limS) :
    (((list_metrics catalog limit offset pat).returned_count : Int)
        = (match limit with
            | none => max (((list_metrics catalog limit offset pat).total_count : Int) - offset) 0
            | some l => min (max (((list_metrics catalog limit offset pat).total_count : Int) - offset) 0) l)
      ∧ (list_metrics catalog limit offset pat).has_more
          = decide (offset + ((list_metrics catalog limit offset pat).returned_count : Int)
              < ((list_metrics catalog limit offset pat).total_count : Int)))
    ∧ (((search_metrics catalog term limS offset).returned_count : Int)
        = min (max (((search_metrics catalog term limS offset).total_count : Int) - offset) 0) limS
      ∧ (search_metrics catalog term limS offset).has_more
          = decide (offset + ((search_metrics catalog term limS offset).returned_count : Int)
              < ((search_metrics catalog term limS offset).total_count : Int))) := by
  constructor
  · exact paginate_core (applyFilter pat catalog) offset hoff limit hlim
  · exact paginate_core (catalog.filter (fun m => strIn (lower term) (lower m))) offset hoff
      (some limS) (fun l hl => by cases hl; exact hlimS)

/-- Witness for C1 at a concrete catalog, filter, limit and offset. -/
theorem C1_pagination_counts_witness :
    ((0 : Int) ≤ 1) ∧ ((0 : Int) ≤ 2)
    ∧ ((((list_metrics ["up", "node_up", "go_gc"] (some 2) 1 (some "up")).returned_count : Int)
          = min (max (((list_metrics ["up", "node_up", "go_gc"] (some 2) 1 (some "up")).total_count : Int) - 1) 0) 2
        ∧ (list_metrics ["up", "node_up", "go_gc"] (some 2) 1 (some "up")).has_more
            = decide ((1 : Int) + ((list_metrics ["up", "node_up", "go_gc"] (some 2) 1 (some "up")).returned_count : Int)
                < ((list_metrics ["up", "node_up", "go_gc"] (some 2) 1 (some "up")).total_count : Int)))
      ∧ (((search_metrics ["up", "node_up", "go_gc"] "up" 2 1).returned_count : Int)
          = min (max (((search_metrics ["up", "node_up", "go_gc"] "up" 2 1).total_count : Int) - 1) 0) 2
        ∧ (search_metrics ["up", "node_up", "go_gc"] "up" 2 1).has_more
            = decide ((1 : Int) + ((search_metrics ["up", "node_up", "go_gc"] "up" 2 1).returned_count : Int)
                < ((search_metrics ["up", "node_up", "go_gc"] "up" 2 1).total_count : Int)))) :=
  ⟨by decide, by decide,
    C1_pagination_counts ["up", "node_up", "go_gc"] (some "up") (some 2) "up" 2 1
      (by decide) (fun l hl => by cases hl; decide) (by decide)⟩

/-- C10: an empty-string filter selects the entire catalog.
`search_metrics` with term `""` filters nothing (`"" in m.lower()` is
true for every name) and coincides with an unfiltered `list_metrics`
with the same bounds; `list_metrics` with `filter_pattern = ""` behaves
exactly as with no filter (the empty string is falsy); both paginate
the full catalog (`total_count` is the whole catalog's length) and,
being total functions, never produce an error. -/
theorem C10_empty_filter (catalog : List String) (limit : Option Int)
    (limS offset : Int) :
    search_metrics catalog "" limS offset = list_metrics catalog (some limS) offset none
    ∧ list_metrics catalog limit offset (some "") = list_metrics catalog limit offset none
    ∧ (search_metrics catalog "" limS offset).total_count = catalog.length
    ∧ (list_metrics catalog limit offset (some "")).total_count = catalog.length := by
  have h0 : lower "" = "" := by decide
  have hfe : (fun m => strIn (lower "") (lower m)) = fun _ => true :=
    funext (fun m => by rw [h0, strIn_empty])
  have h1 : search_metrics catalog "" limS offset
      = list_metrics catalog (some limS) offset none := by
    simp only [search_metrics, list_metrics, applyFilter, listEnd, hfe, List.filter_true]
  refine ⟨h1, rfl, ?_, rfl⟩
  rw [h1]
  rfl

/-! ### Metrics name cache (`get_cached_metrics`, server.py lines 210–234)

The module-level `_metrics_cache = {"data": None, "timestamp": 0}` is
embedded as an explicit `MetricsCache` value threaded through each call.
`time.time()` becomes the explicit `now` argument, and the outcome of
`make_prometheus_request("label/__name__/values")` becomes the explicit
`fetch` argument (`.error` standing for a raised exception).  The
`fetches` field counts how many backend fetches the call issued (0 or 1),
so that the spec's cache properties about I/O can be stated. -/

structure MetricsCache where
  data : Option (List String)
  timestamp : Int
deriving Repr, DecidableEq

def CACHE_TTL : Int := 300

/-- `_metrics_cache["data"] is not None and (current_time - _metrics_cache["timestamp"]) < _CACHE_TTL`. -/
def cacheValid (c : MetricsCache) (now : Int) : Bool :=
  c.data.isSome && decide (now - c.timestamp < CACHE_TTL)

structure CacheCallResult where
  result : List String
  cache : MetricsCache
  fetches : Nat
deriving Repr, DecidableEq

/-- `get_cached_metrics` (server.py lines 210–234): return the cached
snapshot while it is valid; otherwise attempt a fresh fetch, replacing
snapshot and timestamp on success, and on failure fall back to the old
snapshot (or `[]` when none exists) without raising. -/
def get_cached_metrics (c : MetricsCache) (now : Int)
    (fetch : Except String (List String)) : CacheCallResult :=
  if cacheValid c now then
    { result := c.data.getD [], cache := c, fetches := 0 }
  else
    match fetch with
    | .ok data => { result := data, cache := { data := some data, timestamp := now }, fetches := 1 }
    | .error _ => { result := c.data.getD [], cache := c, fetches := 1 }

/-- C2: `get_cached_metrics` never raises (it is a total function into
`CacheCallResult`, every exception of the inner fetch being caught):
whenever the fresh fetch fails it returns the previously cached snapshot
unchanged when one exists (`c.data.getD []` is the prior snapshot when
`c.data = some l`) and the empty sequence when no prior successful fetch
exists, and it leaves the cache state untouched. -/
theorem C2_cache_fetch_failure (c : MetricsCache) (now : Int) (e : String) :
    (get_cached_metrics c now (.error e)).result = c.data.getD []
    ∧ (get_cached_metrics c now (.error e)).cache = c := by
  unfold get_cached_metrics
  split <;> exact ⟨rfl, rfl⟩

/-- C4: starting from the cache state left by a successful catalog fetch
at time `t0`, two `search_metrics`-driven cache reads whose start times
lie within the 300-second TTL window issue at most one (in fact zero
additional) backend fetch between them, and a read made after the TTL
has expired issues exactly one fresh fetch attempt. -/
theorem C4_cache_ttl (l : List String) (t0 t1 t2 : Int)
    (f1 f2 : Except String (List String))
    (h10 : 0 ≤ t1 - t0) (h1w : t1 - t0 < 300)
    (h20 : 0 ≤ t2 - t0) (h2w : t2 - t0 < 300) :
    (get_cached_metrics ⟨some l, t0⟩ t1 f1).fetches
      + (get_cached_metrics (get_cached_metrics ⟨some l, t0⟩ t1 f1).cache t2 f2).fetches ≤ 1
    ∧ ∀ (t3 : Int) (f3 : Except String (List String)), 300 ≤ t3 - t0 →
        (get_cached_metrics ⟨some l, t0⟩ t3 f3).fetches = 1 := by
  have hv1 : cacheValid ⟨some l, t0⟩ t1 = true := by
    simp only [cacheValid, CACHE_TTL, Option.isSome_some, Bool.true_and, decide_eq_true_eq]
    omega
  have hv2 : cacheValid ⟨some l, t0⟩ t2 = true := by
    simp only [cacheValid, CACHE_TTL, Option.isSome_some, Bool.true_and, decide_eq_true_eq]
    omega
  have hc1 : get_cached_metrics ⟨some l, t0⟩ t1 f1
      = { result := l, cache := ⟨some l, t0⟩, fetches := 0 } := by
    unfold get_cached_metrics
    rw [if_pos hv1]
    rfl
  have hc2 : get_cached_metrics ⟨some l, t0⟩ t2 f2
      = { result := l, cache := ⟨some l, t0⟩, fetches := 0 } := by
    unfold get_cached_metrics
    rw [if_pos hv2]
    rfl
  refine ⟨?_, ?_⟩
  · rw [hc1]
    show 0 + (get_cached_metrics ⟨some l, t0⟩ t2 f2).fetches ≤ 1
    rw [hc2]
    show 0 + 0 ≤ 1
    decide
  · intro t3 f3 h3
    have hv3 : cacheValid ⟨some l, t0⟩ t3 = false := by
      simp only [cacheValid, CACHE_TTL, Option.isSome_some, Bool.true_and,
        decide_eq_false_iff_not]
      omega
    unfold get_cached_metrics
    rw [if_neg (by simp [hv3])]
    cases f3 <;> rfl

/-- Witness for C4: a fetch at time 0, cache reads at times 100 and 250
(inside the window) and at 400 (after expiry). -/
theorem C4_cache_ttl_witness :
    ((0:Int) ≤ 100 - 0) ∧ ((100:Int) - 0 < 300) ∧ ((0:Int) ≤ 250 - 0) ∧ ((250:Int) - 0 < 300)
    ∧ ((get_cached_metrics ⟨some ["up"], 0⟩ 100 (.error "down")).fetches
        + (get_cached_metrics (get_cached_metrics ⟨some ["up"], 0⟩ 100 (.error "down")).cache
            250 (.error "down")).fetches ≤ 1
      ∧ ∀ (t3 : Int) (f3 : Except String (List String)), 300 ≤ t3 - 0 →
          (get_cached_metrics ⟨some ["up"], 0⟩ t3 f3).fetches = 1) :=
  ⟨by decide, by decide, by decide, by decide,
    C4_cache_ttl ["up"] 0 100 250 (.error "down") (.error "down")
      (by decide) (by decide) (by decide) (by decide)⟩

/-- C9: when the fresh catalog fetch fails, both the stored snapshot and
the stored timestamp are left completely unmodified, and therefore every
later cache read (the failure was only possible with an invalid cache,
which stays invalid at any later time) attempts another fetch instead of
treating the failure as a fresh result. -/
theorem C9_cache_failure_atomic (c : MetricsCache) (now : Int) (e : String)
    (hinv : cacheValid c now = false) :
    (get_cached_metrics c now (.error e)).cache = c
    ∧ (get_cached_metrics c now (.error e)).fetches = 1
    ∧ ∀ (now2 : Int) (f2 : Except String (List String)), now ≤ now2 →
        (get_cached_metrics c now2 f2).fetches = 1 := by
  have hstep : get_cached_metrics c now (.error e)
      = { result := c.data.getD [], cache := c, fetches := 1 } := by
    unfold get_cached_metrics
    rw [if_neg (by simp [hinv])]
  refine ⟨by rw [hstep], by rw [hstep], ?_⟩
  intro now2 f2 hle
  have hinv2 : cacheValid c now2 = false := by
    rcases hc : c.data with _ | ls
    · simp [cacheValid, hc]
    · simp only [cacheValid, hc, CACHE_TTL, Option.isSome_some, Bool.true_and,
        decide_eq_false_iff_not] at hinv ⊢
      omega
  unfold get_cached_metrics
  rw [if_neg (by simp [hinv2])]
  cases f2 <;> rfl

/-- Witness for C9: an expired cache (fetched at time 0, read at 400)
whose refresh fails. -/
theorem C9_cache_failure_atomic_witness :
    cacheValid ⟨some ["up"], 0⟩ 400 = false
    ∧ ((get_cached_metrics ⟨some ["up"], 0⟩ 400 (.error "down")).cache = ⟨some ["up"], 0⟩
      ∧ (get_cached_metrics ⟨some ["up"], 0⟩ 400 (.error "down")).fetches = 1
      ∧ ∀ (now2 : Int) (f2 : Except String (List String)), 400 ≤ now2 →
          (get_cached_metrics ⟨some ["up"], 0⟩ now2 f2).fetches = 1) :=
  ⟨by decide, C9_cache_failure_atomic ⟨some ["up"], 0⟩ 400 "down" (by decide)⟩

/-! ### Configuration and the Request Gateway
(`PrometheusConfig`, `get_prometheus_auth`, `make_prometheus_request`,
server.py lines 114–208)

The module constructs its configuration once from environment variables,
always passing strings (defaulting to `""`), so every credential field
is embedded as a `String` whose Python truthiness is `≠ ""`.  The Python
`headers` dict is embedded as a lookup function `String → Option String`
with last-write-wins update, which is exactly `dict.update` semantics. -/

structure PrometheusConfig where
  url : String
  url_ssl_verify : Bool
  disable_prometheus_links : Bool
  username : String
  password : String
  token : String
  org_id : String
  custom_headers : Option (List (String × String))

def emptyHeaders : String → Option String := fun _ => none

/-- `headers[k] = v` (dict item assignment / single-key update). -/
def hset (h : String → Option String) (k v : String) : String → Option String :=
  fun q => if q = k then some v else h q

/-- `headers.update(kvs)` for a dict literal given in insertion order. -/
def hmerge (h : String → Option String) (kvs : List (String × String)) :
    String → Option String :=
  kvs.foldl (fun acc kv => hset acc kv.1 kv.2) h

theorem hset_ne (h : String → Option String) (k v q : String) (hq : q ≠ k) :
    hset h k v q = h q := by
  simp [hset, hq]

theorem hmerge_not_mem (kvs : List (String × String)) (h : String → Option String)
    (q : String) (hq : ∀ kv ∈ kvs, kv.1 ≠ q) : hmerge h kvs q = h q := by
  induction kvs generalizing h with
  | nil => rfl
  | cons kv t ih =>
    show hmerge (hset h kv.1 kv.2) t q = h q
    rw [ih (hset h kv.1 kv.2) (fun x hx => hq x (List.mem_cons_of_mem _ hx))]
    exact hset_ne h kv.1 kv.2 q (fun he => hq kv (List.mem_cons_self _ _) he.symm)

/-- Outcome of `get_prometheus_auth` (server.py lines 146–152): a header
dict for bearer-token auth, an `HTTPBasicAuth` credential pair, or
`None`. -/
inductive PromAuth where
  | bearer (headers : List (String × String))
  | basic (username password : String)
  | noAuth
deriving Repr, DecidableEq

/-- `get_prometheus_auth` (server.py lines 146–152): the bearer token
takes priority; basic auth needs both username and password truthy. -/
def get_prometheus_auth (cfg : PrometheusConfig) : PromAuth :=
  if cfg.token ≠ "" then
    PromAuth.bearer [("Authorization", "Bearer " ++ cfg.token)]
  else if cfg.username ≠ "" ∧ cfg.password ≠ "" then
    PromAuth.basic cfg.username cfg.password
  else
    PromAuth.noAuth

/-- The outbound HTTP request as handed to `requests.get`: target URL,
assembled header dict, the `auth=` argument (a basic credential pair or
`None`), and the TLS-verification flag. -/
structure BuiltRequest where
  url : String
  headers : String → Option String
  basicAuth : Option (String × String)
  verify : Bool

/-- The request-construction stage of `make_prometheus_request`
(server.py lines 154–182): fail when no URL is configured; resolve auth
(a bearer dict moves into `headers` and clears `auth`); add the
`X-Scope-OrgID` header when an org id is configured; merge custom
headers last; build `{url}/api/v1/{endpoint}`. -/
def make_prometheus_request_build (cfg : PrometheusConfig) (endpoint : String) :
    Except String BuiltRequest :=
  if cfg.url = "" then
    .error "Prometheus configuration is missing. Please set PROMETHEUS_URL environment variable."
  else
    let auth := get_prometheus_auth cfg
    let headersAuth := match auth with
      | .bearer hs => hmerge emptyHeaders hs
      | _ => emptyHeaders
    let basicAuth : Option (String × String) := match auth with
      | .basic u p => some (u, p)
      | _ => none
    let headersOrg := if cfg.org_id ≠ "" then hset headersAuth "X-Scope-OrgID" cfg.org_id
      else headersAuth
    let headersFinal := match cfg.custom_headers with
      | some ch => if ch.isEmpty then headersOrg else hmerge headersOrg ch
      | none => headersOrg
    .ok { url := rstripSlash cfg.url ++ "/api/v1/" ++ endpoint
          headers := headersFinal
          basicAuth := basicAuth
          verify := cfg.url_ssl_verify }

/-- C3 counterexample: a configuration with both a bearer token and
basic credentials, whose custom headers carry their own
`Authorization` key.  Custom headers are merged last (dict
`update`), so the built request carries `Authorization: Basic zzz` —
not `Bearer tok` — refuting the claim that every such request carries
the bearer header.  (The no-basic-credential half does hold: the
`auth=` argument is `None`.) -/
theorem C3_auth_precedence_counterexample :
    (make_prometheus_request_build
        { url := "http://prom:9090", url_ssl_verify := true,
          disable_prometheus_links := false, username := "user",
          password := "pass", token := "tok", org_id := "",
          custom_headers := some [("Authorization", "Basic zzz")] }
        "query").toOption.map (fun r => (r.headers "Authorization", r.basicAuth))
      = some (some "Basic zzz", none)
    ∧ ("Basic zzz" : String) ≠ "Bearer " ++ "tok" := by
  constructor
  · rfl
  · decide

/-- C3 (amended): when both a bearer token and basic credentials are
configured (and a backend URL is set), every request built by the
Gateway passes no basic-auth credential to the HTTP call — with no
condition on the custom headers — and it carries
`Authorization: Bearer <token>` provided the configured custom headers
— which are merged last and can override any earlier header — do not
themselves contain an `Authorization` key. -/
theorem C3_auth_precedence (cfg : PrometheusConfig) (endpoint : String)
    (htok : cfg.token ≠ "") (hu : cfg.username ≠ "") (hp : cfg.password ≠ "")
    (hurl : cfg.url ≠ "") :
    (make_prometheus_request_build cfg endpoint).toOption.map (fun r => r.basicAuth)
        = some none
    ∧ ((∀ kv ∈ cfg.custom_headers.getD [], kv.1 ≠ "Authorization") →
        (make_prometheus_request_build cfg endpoint).toOption.map
            (fun r => r.headers "Authorization")
          = some (some ("Bearer " ++ cfg.token))) := by
  have hauth : get_prometheus_auth cfg
      = PromAuth.bearer [("Authorization", "Bearer " ++ cfg.token)] := by
    unfold get_prometheus_auth
    rw [if_pos htok]
  have hbase : hmerge emptyHeaders [("Authorization", "Bearer " ++ cfg.token)] "Authorization"
      = some ("Bearer " ++ cfg.token) := by
    show hset emptyHeaders "Authorization" ("Bearer " ++ cfg.token) "Authorization" = _
    simp [hset]
  have horg : (if cfg.org_id ≠ "" then
        hset (hmerge emptyHeaders [("Authorization", "Bearer " ++ cfg.token)])
          "X-Scope-OrgID" cfg.org_id
      else hmerge emptyHeaders [("Authorization", "Bearer " ++ cfg.token)]) "Authorization"
      = some ("Bearer " ++ cfg.token) := by
    split
    · rw [hset_ne _ _ _ _ (by decide)]
      exact hbase
    · exact hbase
  constructor
  · unfold make_prometheus_request_build
    rw [if_neg hurl]
    simp only [hauth, Except.toOption, Option.map, Option.some.injEq]
  · intro hch
    unfold make_prometheus_request_build
    rw [if_neg hurl]
    simp only [hauth, Except.toOption, Option.map, Option.some.injEq]
    rcases hc : cfg.custom_headers with _ | ch
    · exact horg
    · rcases ch with _ | ⟨kv0, cht⟩
      · exact horg
      · have hch2 : ∀ kv ∈ kv0 :: cht, kv.1 ≠ "Authorization" := by
          intro kv hkv
          apply hch
          rw [hc]
          simpa using hkv
        show hmerge (if cfg.org_id ≠ "" then
            hset (hmerge emptyHeaders [("Authorization", "Bearer " ++ cfg.token)])
              "X-Scope-OrgID" cfg.org_id
          else hmerge emptyHeaders [("Authorization", "Bearer " ++ cfg.token)])
            (kv0 :: cht) "Authorization" = some ("Bearer " ++ cfg.token)
        rw [hmerge_not_mem _ _ _ hch2]
        exact horg

/-- Witness for C3 (amended) at a concrete configuration, exercising
both the unconditional no-basic-credential half and, at Authorization-free
custom headers, the bearer-header half. -/
theorem C3_auth_precedence_witness :
    (("tok" : String) ≠ "") ∧ (("user" : String) ≠ "") ∧ (("pass" : String) ≠ "")
    ∧ (("http://prom:9090" : String) ≠ "")
    ∧ (make_prometheus_request_build
        { url := "http://prom:9090", url_ssl_verify := true,
          disable_prometheus_links := false, username := "user",
          password := "pass", token := "tok", org_id := "tenant-a",
          custom_headers := some [("X-Custom", "v")] }
        "query").toOption.map (fun r => r.basicAuth) = some none
    ∧ (make_prometheus_request_build
        { url := "http://prom:9090", url_ssl_verify := true,
          disable_prometheus_links := false, username := "user",
          password := "pass", token := "tok", org_id := "tenant-a",
          custom_headers := some [("X-Custom", "v")] }
        "query").toOption.map (fun r => r.headers "Authorization")
      = some (some ("Bearer " ++ "tok")) :=
  ⟨by decide, by decide, by decide, by decide,
    (C3_auth_precedence
      { url := "http://prom:9090", url_ssl_verify := true,
        disable_prometheus_links := false, username := "user",
        password := "pass", token := "tok", org_id := "tenant-a",
        custom_headers := some [("X-Custom", "v")] }
      "query" (by decide) (by decide) (by decide) (by decide)).1,
    (C3_auth_precedence
      { url := "http://prom:9090", url_ssl_verify := true,
        disable_prometheus_links := false, username := "user",
        password := "pass", token := "tok", org_id := "tenant-a",
        custom_headers := some [("X-Custom", "v")] }
      "query" (by decide) (by decide) (by decide) (by decide)).2
      (by intro kv hkv; simp at hkv; rw [hkv]; decide)⟩

/-! ### JSON payloads and the response-validation stage

`Json` is a shallow model of decoded Python JSON values.  The
envelope-validation stage of `make_prometheus_request`
(server.py lines 185–198) inspects the decoded body's `status` field
and either raises `ValueError` (modelled as `.error`) or returns the
`data` field. -/

inductive Json where
  | null
  | boolVal (b : Bool)
  | num (n : Int)
  | str (s : String)
  | arr (xs : List Json)
  | obj (fields : List (String × Json))

/-- A decoded 2xx response body, as accessed by
`make_prometheus_request`: its `status` field, its optional `error`
field, and its `data` field. -/
structure PromEnvelope where
  status : String
  error : Option String
  data : Json

/-- The envelope-validation stage of `make_prometheus_request`
(server.py lines 187–198): on `status != "success"` raise
`ValueError(f"Prometheus API error: {result.get('error', 'Unknown error')}")`,
otherwise return `result["data"]`. -/
def make_prometheus_response_check (result : PromEnvelope) : Except String Json :=
  if result.status ≠ "success" then
    .error ("Prometheus API error: " ++ result.error.getD "Unknown error")
  else
    .ok result.data

/-- A well-formed instant/range query payload `{"resultType": ..., "result": ...}`. -/
structure QueryData where
  resultType : String
  result : Json

/-- The UI deep-link attached to query results: base URL, the
parameters handed to `urllib.parse.urlencode` (an external pure
function) in construction order, `rel`, and `title`. -/
structure UiLink where
  base : String
  ui_params : List (String × String)
  rel : String
  title : String

structure QueryOutput where
  resultType : String
  result : Json
  links : Option (List UiLink)

/-- `execute_query` (server.py lines 250–289), with the Gateway call's
outcome passed as `gw` (a raised `ValueError` propagates unchanged —
the handler catches nothing). -/
def execute_query (cfg : PrometheusConfig) (q : String) (t : Option String)
    (gw : Except String QueryData) : Except String QueryOutput :=
  match gw with
  | .error e => .error e
  | .ok data =>
    .ok { resultType := data.resultType
          result := data.result
          links :=
            if !cfg.disable_prometheus_links then
              some [{ base := rstripSlash cfg.url ++ "/graph"
                      ui_params := [("g0.expr", q), ("g0.tab", "0")]
                          ++ (match t with
                              | some ts => [("g0.moment_input", ts)]
                              | none => [])
                      rel := "prometheus-ui"
                      title := "Ver no Prometheus UI" }]
            else none }

/-- C5 counterexample: for the 2xx body `{"status":"error"}` (no
`error` field) the Gateway raises
`ValueError("Prometheus API error: Unknown error")` — the message
carries the literal `"Unknown error"`, and the lowercase string
`"unknown"` claimed by the spec does not occur in it. -/
theorem C5_backend_failure_counterexample :
    make_prometheus_response_check ⟨"error", none, Json.null⟩
      = .error "Prometheus API error: Unknown error"
    ∧ strIn "unknown" "Prometheus API error: Unknown error" = false := by
  constructor
  · rfl
  · decide

/-- C5 (amended): for every 2xx body that is valid JSON with a `status`
field not equal to `"success"`, the Gateway signals a failure carrying
the body's `error` string, or the placeholder `"Unknown error"` (not
`"unknown"`) when that field is absent; the failure propagates
unchanged through `execute_query` to the caller. -/
theorem C5_backend_failure (st : String) (err : Option String) (d : Json)
    (h : st ≠ "success") :
    make_prometheus_response_check ⟨st, err, d⟩
      = .error ("Prometheus API error: " ++ err.getD "Unknown error")
    ∧ ∀ (cfg : PrometheusConfig) (q : String) (t : Option String),
        execute_query cfg q t (.error ("Prometheus API error: " ++ err.getD "Unknown error"))
          = .error ("Prometheus API error: " ++ err.getD "Unknown error") := by
  constructor
  · unfold make_prometheus_response_check
    rw [if_pos h]
  · intro cfg q t
    rfl

/-- Witness for C5 at the scenario body
`{"status":"error","error":"bad query"}` for `instantQuery`: the caller
receives a failure containing `"bad query"`. -/
theorem C5_backend_failure_witness :
    (("error" : String) ≠ "success")
    ∧ (make_prometheus_response_check ⟨"error", some "bad query", Json.null⟩
        = .error ("Prometheus API error: " ++ (some "bad query").getD "Unknown error")
      ∧ ∀ (cfg : PrometheusConfig) (q : String) (t : Option String),
          execute_query cfg q t
              (.error ("Prometheus API error: " ++ (some "bad query").getD "Unknown error"))
            = .error ("Prometheus API error: " ++ (some "bad query").getD "Unknown error"))
    ∧ strIn "bad query" "Prometheus API error: bad query" = true :=
  ⟨by decide,
    C5_backend_failure "error" (some "bad query") Json.null (by decide),
    by decide⟩

/-! ### Health check (`health_check`, server.py lines 38–83)

The handler wraps everything in `try/except` and returns a status
dictionary in every case, so it is embedded as a total function.  The
connectivity probe (`make_prometheus_request("query", {"query": "up", ...})`)
runs only when a backend URL is configured; its outcome is the `probe`
argument (`.error` standing for a raised exception). -/

structure HealthReport where
  status : String
  prometheus_connectivity : Option String
  errorMsg : Option String
deriving Repr, DecidableEq

/-- `health_check` (server.py lines 38–83). -/
def health_check (urlConfigured : Bool) (probe : Except String Unit) : HealthReport :=
  if urlConfigured then
    match probe with
    | .ok _ => { status := "healthy", prometheus_connectivity := some "healthy",
                 errorMsg := none }
    | .error e => { status := "degraded", prometheus_connectivity := some "unhealthy",
                    errorMsg := some e }
  else
    { status := "unhealthy", prometheus_connectivity := none,
      errorMsg := some "PROMETHEUS_URL not configured" }

/-- C6: `health_check` never raises (it is total) and returns status
`"unhealthy"` whenever no backend URL is configured, `"degraded"`
whenever a URL is configured but the probe query fails, and
`"healthy"` whenever the probe succeeds. -/
theorem C6_health_status (probe : Except String Unit) :
    (health_check false probe).status = "unhealthy"
    ∧ (∀ e, (health_check true (.error e)).status = "degraded")
    ∧ (health_check true (.ok ())).status = "healthy" :=
  ⟨rfl, fun _ => rfl, rfl⟩

/-! ### Metric metadata normalization
(`get_metric_metadata`, server.py lines 581–602)

The handler dispatches on `"metadata" in data` and `"data" in data`.
Python's `in` is membership: key lookup for a dict, element equality
for a list, substring containment for a string, and a `TypeError` for
non-container values; `data["metadata"]` is key subscription, a
`TypeError` on a list or string.  Both are embedded exactly. -/

/-- Python `needle in j` for a string needle against a JSON value
(a string compares equal only to an equal string). -/
def pyIn (needle : String) (j : Json) : Except String Bool :=
  match j with
  | .obj fields => .ok (fields.any (fun p => p.1 == needle))
  | .arr xs => .ok (xs.any (fun x => match x with
      | .str s => s == needle
      | _ => false))
  | .str s => .ok (isSubOf needle.data s.data)
  | _ => .error "TypeError: argument is not iterable"

/-- Python `j[k]` for a string key. -/
def pyGetStr (j : Json) (k : String) : Except String Json :=
  match j with
  | .obj fields =>
    match fields.lookup k with
    | some v => .ok v
    | none => .error "KeyError"
  | _ => .error "TypeError: list indices must be integers"

/-- `if isinstance(metadata, dict): metadata = [metadata]`. -/
def jsonWrap : Json → Json
  | .obj fields => .arr [.obj fields]
  | j => j

/-- The normalization core of `get_metric_metadata`
(server.py lines 592–602), applied to the successful Gateway payload. -/
def get_metric_metadata_core (data : Json) : Except String Json := do
  let hasMeta ← pyIn "metadata" data
  let metadata ←
    if hasMeta then pyGetStr data "metadata"
    else do
      let hasData ← pyIn "data" data
      if hasData then pyGetStr data "data" else pure data
  pure (jsonWrap metadata)

/-- C7 counterexample: the bare list payload `["metadata"]` has no
`metadata` key, so by the claim it should itself be the normalized
value — but Python's `"metadata" in data` is element membership on a
list, so the code takes the first branch and `data["metadata"]` raises
`TypeError` instead of returning the payload. -/
theorem C7_metadata_shapes_counterexample :
    get_metric_metadata_core (Json.arr [Json.str "metadata"])
      = .error "TypeError: list indices must be integers"
    ∧ get_metric_metadata_core (Json.arr [Json.str "metadata"])
        ≠ .ok (Json.arr [Json.str "metadata"]) := by
  refine ⟨rfl, ?_⟩
  intro h
  exact Except.noConfusion ((rfl :
    get_metric_metadata_core (Json.arr [Json.str "metadata"])
      = Except.error "TypeError: list indices must be integers").symm.trans h)

/-- C7 (amended): `get_metric_metadata` normalizes the backend payload
shapes as follows.  A dictionary payload with a `metadata` key yields
that key's value, else a dictionary with a `data` key yields that key's
value, else the payload itself is the value — provided that, for a
non-dictionary payload, Python's membership tests for `"metadata"` and
`"data"` are false (a list containing one of those strings as an
element, or a string containing one as a substring, raises a
`TypeError` instead).  A lone dictionary value is wrapped into a
single-element list.  In particular the scenario holds: the Gateway
payload of `{"status":"success","data":{"metadata":[{"type":"gauge"}]}}`
normalizes to `[{"type":"gauge"}]`. -/
theorem C7_metadata_shapes (fields : List (String × Json)) (j : Json) :
    (get_metric_metadata_core (.obj fields)
        = .ok (jsonWrap (((fields.lookup "metadata").getD
            ((fields.lookup "data").getD (.obj fields))))))
    ∧ (pyIn "metadata" j = .ok false → pyIn "data" j = .ok false →
        get_metric_metadata_core j = .ok (jsonWrap j))
    ∧ (make_prometheus_response_check
          ⟨"success", none, .obj [("metadata", .arr [.obj [("type", .str "gauge")]])]⟩
        = .ok (.obj [("metadata", .arr [.obj [("type", .str "gauge")]])])
      ∧ get_metric_metadata_core (.obj [("metadata", .arr [.obj [("type", .str "gauge")]])])
        = .ok (.arr [.obj [("type", .str "gauge")]])) := by
  refine ⟨?_, ?_, rfl, rfl⟩
  · have hkey : ∀ (k : String) (fs : List (String × Json)),
        (fs.any (fun p => p.1 == k)) = (fs.lookup k).isSome := by
      intro k fs
      induction fs with
      | nil => rfl
      | cons p t ih =>
        obtain ⟨pk, pv⟩ := p
        by_cases hp : pk = k
        · subst hp
          simp [List.lookup]
        · have h1 : (pk == k) = false := beq_eq_false_iff_ne.mpr hp
          have h2 : (k == pk) = false := beq_eq_false_iff_ne.mpr (Ne.symm hp)
          simp [List.lookup, h1, h2, ih]
    show (do
        let hasMeta ← pyIn "metadata" (Json.obj fields)
        let metadata ←
          if hasMeta then pyGetStr (Json.obj fields) "metadata"
          else do
            let hasData ← pyIn "data" (Json.obj fields)
            if hasData then pyGetStr (Json.obj fields) "data" else pure (Json.obj fields)
        pure (jsonWrap metadata)) = _
    rcases hm : fields.lookup "metadata" with _ | vm
    · rcases hd : fields.lookup "data" with _ | vd
      · simp only [pyIn, hkey, hm, hd, pyGetStr, Option.isSome_none]
        rfl
      · simp only [pyIn, hkey, hm, hd, pyGetStr, Option.isSome_none, Option.isSome_some]
        rfl
    · simp only [pyIn, hkey, hm, pyGetStr, Option.isSome_some]
      rfl
  · intro hm hd
    show (do
        let hasMeta ← pyIn "metadata" j
        let metadata ←
          if hasMeta then pyGetStr j "metadata"
          else do
            let hasData ← pyIn "data" j
            if hasData then pyGetStr j "data" else pure j
        pure (jsonWrap metadata)) = _
    rw [hm, hd]
    rfl

/-- Witness for C7 at a bare list payload (no `metadata`/`data`
membership), exercising the implication of the second conjunct. -/
theorem C7_metadata_shapes_witness :
    pyIn "metadata" (Json.arr [Json.str "up"]) = .ok false
    ∧ pyIn "data" (Json.arr [Json.str "up"]) = .ok false
    ∧ get_metric_metadata_core (Json.arr [Json.str "up"])
        = .ok (jsonWrap (Json.arr [Json.str "up"])) :=
  ⟨rfl, rfl,
    (C7_metadata_shapes [] (Json.arr [Json.str "up"])).2.1 rfl rfl⟩

/-! ### Range query with progress reporting
(`execute_range_query`, server.py lines 302–362)

The optional `ctx` reporter becomes the flag `hasCtx`, and the ticks
the handler emits through `ctx.report_progress` are collected, in
emission order, in the second component of the result.  A tick is
emitted before the Gateway call, one after it, and one at the end; a
raised Gateway exception propagates after the first tick. -/

structure ProgressTick where
  progress : Nat
  total : Nat
  message : String
deriving Repr, DecidableEq

/-- `execute_range_query` (server.py lines 302–362), with the outcome
of `make_prometheus_request("query_range", ...)` passed as `gw`. -/
def execute_range_query (cfg : PrometheusConfig) (q startT endT step : String)
    (hasCtx : Bool) (gw : Except String QueryData) :
    Except String QueryOutput × List ProgressTick :=
  match gw with
  | .error e =>
    (.error e,
      if hasCtx then [⟨0, 100, "Iniciando consulta de período..."⟩] else [])
  | .ok data =>
    (.ok { resultType := data.resultType
           result := data.result
           links :=
             if !cfg.disable_prometheus_links then
               some [{ base := rstripSlash cfg.url ++ "/graph"
                       ui_params := [("g0.expr", q), ("g0.tab", "0"),
                         ("g0.range_input", startT ++ " to " ++ endT),
                         ("g0.step_input", step)]
                       rel := "prometheus-ui"
                       title := "Ver no Prometheus UI" }]
             else none },
      if hasCtx then
        [⟨0, 100, "Iniciando consulta de período..."⟩,
         ⟨50, 100, "Processando resultados da consulta..."⟩,
         ⟨100, 100, "Consulta de período concluída"⟩]
      else [])

/-- C8: for every `execute_range_query` call whose backend call
succeeds, supplying a progress reporter emits exactly three ticks with
values 0, 50, 100 in that strictly increasing order, terminating at
100; without a reporter no tick is emitted, and the returned result is
identical in both cases. -/
theorem C8_range_query_progress (cfg : PrometheusConfig)
    (q startT endT step : String) (qd : QueryData) :
    (execute_range_query cfg q startT endT step true (.ok qd)).2.map ProgressTick.progress
        = [0, 50, 100]
    ∧ List.Chain' (· < ·)
        ((execute_range_query cfg q startT endT step true (.ok qd)).2.map ProgressTick.progress)
    ∧ ((execute_range_query cfg q startT endT step true (.ok qd)).2.map
          ProgressTick.progress).getLast? = some 100
    ∧ (execute_range_query cfg q startT endT step false (.ok qd)).2 = []
    ∧ (execute_range_query cfg q startT endT step false (.ok qd)).1
        = (execute_range_query cfg q startT endT step true (.ok qd)).1 := by
  refine ⟨rfl, ?_, rfl, rfl, rfl⟩
  have h : (execute_range_query cfg q startT endT step true (.ok qd)).2.map
      ProgressTick.progress = [0, 50, 100] := rfl
  rw [h]
  norm_num [List.chain'_cons, List.chain'_singleton]

end PromMCP
